import Mathlib

/-
Shallow embedding of the Assistant chat component (WebSocket query session)
of the raseed-bharat-finance frontend.

The embedded code is the `Assistant` React component: its `Message` data
model, the `handleWebSocketMessage` frame router, the `handleSendMessage`
submit handler with its 30-second loading timeout, the WebSocket `onclose`
reconnection logic, and `clearChat`.  React `useState` updates are modelled
as pure transitions on an explicit `AssistantState` record; `setTimeout`
timers are modelled as armed/fired flags with explicit fire events; the
`Date.now().toString()` message ids and `new Date()` timestamps are opaque
string parameters (timestamps carry no behaviour and are omitted).
JavaScript truthiness on optional string / number fields is modelled
explicitly (`jsOr`, `jsNumTruthy`).
-/

namespace RaseedAssistant

/-- The `Message` interface: `type` is the union
`'user' | 'assistant' | 'status' | 'intermediate'`. -/
inductive MessageType where
  | user
  | assistant
  | status
  | intermediate
deriving DecidableEq, Repr

/-- The `Message` interface of the component.  The optional
`isProcessing?: boolean` field is modelled as a `Bool` that is `false`
when the source omits it (JS `undefined` is falsy in every place the
field is read).  The `timestamp: Date` field carries no behaviour in the
embedded logic and is omitted. -/
structure Message where
  id : String
  type : MessageType
  content : String
  isProcessing : Bool
deriving DecidableEq, Repr

/-- The `ConnectionStatus` union
`'connecting' | 'connected' | 'disconnected' | 'error'`. -/
inductive ConnectionStatus where
  | connecting
  | connected
  | disconnected
  | error
deriving DecidableEq, Repr

/-- The `WebSocketMessage` interface for inbound frames.  `type` is kept
as a raw `String` because frames come from `JSON.parse` of untrusted wire
data and the router must handle unrecognized kinds.  The declared-but-never-
read `data?: any` field is modelled as an opaque optional string, so that
"unknown fields are ignored" is statable. -/
structure WebSocketMessage where
  type : String
  message : Option String
  answer : Option String
  error : Option String
  results_count : Option Int
  data : Option String
deriving DecidableEq, Repr

/-- JavaScript `a || b` for an optional string `a`: `undefined` and the
empty string are falsy. -/
def jsOr (a : Option String) (b : String) : String :=
  match a with
  | none => b
  | some s => if s = "" then b else s

/-- JavaScript truthiness of an optional number: `undefined` and `0` are
falsy. -/
def jsNumTruthy : Option Int → Bool
  | none => false
  | some n => n != 0

/-- JavaScript `String.prototype.trim()`: strips leading and trailing
whitespace (an executable model over the character list). -/
def jsTrim (s : String) : String :=
  String.mk
    (((s.data.dropWhile Char.isWhitespace).reverse.dropWhile
      Char.isWhitespace).reverse)

/-- The component state that the embedded handlers read and write:
`messages`, `inputValue`, `isLoading`, `connectionStatus`, the
`loadingTimeoutRef` 30-second query timer (armed = a pending, uncancelled,
unfired `setTimeout`), the `reconnectTimeoutRef` retry timer, the
`reconnectAttempts` ref, and the derived `isUserAuthenticated` flag. -/
structure AssistantState where
  messages : List Message
  inputValue : String
  isLoading : Bool
  connectionStatus : ConnectionStatus
  loadingTimeoutArmed : Bool
  reconnectTimeoutArmed : Bool
  reconnectAttempts : Nat
  isUserAuthenticated : Bool
deriving DecidableEq, Repr

/-- `const maxReconnectAttempts = 5`. -/
def maxReconnectAttempts : Nat := 5

/-- The loading-timeout duration passed to `setTimeout` in
`handleSendMessage`: 30000 ms ("30 second timeout"). -/
def loadingTimeoutMs : Nat := 30000

/-- The retry delay of the `onclose` handler:
`Math.min(1000 * Math.pow(2, reconnectAttempts.current), 30000)`. -/
def reconnectDelay (attempt : Nat) : Nat :=
  min (1000 * 2 ^ attempt) 30000

/-- The scheduling decision of the `onclose` handler: `some delay` when
`event.code !== 1000 && reconnectAttempts.current < maxReconnectAttempts`
(a reconnect `setTimeout` is created with that delay), otherwise `none`;
the `Bool` records whether the terminal "Connection Failed" toast of the
`else if (reconnectAttempts.current >= maxReconnectAttempts)` branch is
shown. -/
def onCloseRetry (code : Nat) (attempt : Nat) : Option Nat × Bool :=
  if code ≠ 1000 ∧ attempt < maxReconnectAttempts then
    (some (reconnectDelay attempt), false)
  else if maxReconnectAttempts ≤ attempt then
    (none, true)
  else
    (none, false)

/-- The initial greeting message of the `useState` initializer. -/
def initialGreeting : Message :=
  { id := "1"
    type := MessageType.assistant
    content := "Hi! I\x27m your financial assistant. You can ask me about your receipts, bills, spending patterns, or any financial questions. Try asking \x27How much did I spend on food last month?\x27 or \x27Show me my biggest expenses\x27."
    isProcessing := false }

/-- The greeting message that `clearChat` resets the history to. -/
def clearGreeting : Message :=
  { id := "1"
    type := MessageType.assistant
    content := "Hi! I\x27m your financial assistant. You can ask me about your receipts, bills, spending patterns, or any financial questions."
    isProcessing := false }

/-- Content of a `status` frame turn: `data.message || 'Processing...'`. -/
def statusContent (d : WebSocketMessage) : String :=
  jsOr d.message "Processing..."

/-- Content of an `intermediate` frame turn:
`data.results_count ? `Found ${data.results_count} matching receipts`
  : (data.message || 'Processing your request...')`.
JS number truthiness makes `results_count: 0` take the fallback branch. -/
def intermediateContent (d : WebSocketMessage) : String :=
  if jsNumTruthy d.results_count then
    "Found " ++ toString (d.results_count.getD 0) ++ " matching receipts"
  else
    jsOr d.message "Processing your request..."

/-- Content of a `result` frame turn:
`data.answer || data.message || 'No response received'`. -/
def resultContent (d : WebSocketMessage) : String :=
  jsOr d.answer (jsOr d.message "No response received")

/-- The error text of an `error` frame:
`data.error || data.message || 'An unknown error occurred'`. -/
def errorText (d : WebSocketMessage) : String :=
  jsOr d.error (jsOr d.message "An unknown error occurred")

/-- Content of the Assistant turn appended for an `error` frame. -/
def errorContent (d : WebSocketMessage) : String :=
  "Sorry, I encountered an error: " ++ errorText d ++ ". Please try again."

/-- `handleWebSocketMessage`, as a pure transition on the component state.
`mid` stands for the `Date.now().toString()` message id.  The leading
guard embeds the validation
`if (!data || typeof data !== 'object' || !data.type) return;` — in the
embedding `data` is always an object, so only the falsy `type` (empty
string) case remains.  The `switch (data.type)` becomes the if-chain; the
`default` branch only logs and changes nothing. -/
def handleWebSocketMessage (mid : String) (d : WebSocketMessage)
    (s : AssistantState) : AssistantState :=
  if d.type = "" then s
  else if d.type = "connection" then s
  else if d.type = "status" then
    { s with messages := s.messages ++
        [{ id := mid, type := MessageType.status,
           content := statusContent d, isProcessing := true }] }
  else if d.type = "intermediate" then
    { s with messages :=
        s.messages.filter (fun m => m.type != MessageType.intermediate) ++
          [{ id := mid, type := MessageType.intermediate,
             content := intermediateContent d, isProcessing := true }] }
  else if d.type = "result" then
    { s with
        messages := s.messages.filter (fun m => !m.isProcessing) ++
          [{ id := mid, type := MessageType.assistant,
             content := resultContent d, isProcessing := false }],
        isLoading := false,
        loadingTimeoutArmed := false }
  else if d.type = "error" then
    { s with
        messages := s.messages.filter (fun m => !m.isProcessing) ++
          [{ id := mid, type := MessageType.assistant,
             content := errorContent d, isProcessing := false }],
        isLoading := false,
        loadingTimeoutArmed := false }
  else s

/-- The `onmessage` callback: `JSON.parse` failure (modelled as `parsed =
none`) is caught, logged and toasted, with no state change; a parsed frame
is routed to `handleWebSocketMessage`. -/
def onMessage (mid : String) (parsed : Option WebSocketMessage)
    (s : AssistantState) : AssistantState :=
  match parsed with
  | none => s
  | some d => handleWebSocketMessage mid d s

/-- The synthesized turn appended by the 30-second loading timeout. -/
def timeoutMessage (mid : String) : Message :=
  { id := mid
    type := MessageType.assistant
    content := "Request timed out. The server might be busy. Please try again."
    isProcessing := false }

/-- Firing of the `loadingTimeoutRef` 30-second `setTimeout` created in
`handleSendMessage`.  A `setTimeout` fires at most once and only while
pending and uncancelled, hence the `loadingTimeoutArmed` guard; firing
consumes the timer.  The callback body resets `isLoading`, removes the
processing messages and appends the synthesized timed-out Assistant
turn. -/
def loadingTimeoutFire (mid : String) (s : AssistantState) : AssistantState :=
  if s.loadingTimeoutArmed then
    { s with
        loadingTimeoutArmed := false,
        isLoading := false,
        messages := s.messages.filter (fun m => !m.isProcessing) ++
          [timeoutMessage mid] }
  else s

/-- `handleSendMessage`.  Its only guard is
`if (!inputValue.trim() || connectionStatus !== 'connected' || !isUserAuthenticated) return;`
— there is no check of `isLoading`.  On success it appends the User turn,
clears the input, sets `isLoading`, and (after clearing any previous
loading timeout) arms a fresh 30-second timeout; the WebSocket `send` and
the 100 ms-delayed status append are external effects (the latter is the
separate `delayedProcessingStatus` event). -/
def handleSendMessage (mid : String) (s : AssistantState) : AssistantState :=
  if jsTrim s.inputValue = "" ∨ s.connectionStatus ≠ ConnectionStatus.connected ∨
      s.isUserAuthenticated = false then s
  else
    { s with
        messages := s.messages ++
          [{ id := mid, type := MessageType.user,
             content := s.inputValue, isProcessing := false }],
        inputValue := "",
        isLoading := true,
        loadingTimeoutArmed := true }

/-- Firing of the 100 ms `setTimeout` inside `handleSendMessage` that
appends the initial `'Processing your query...'` status turn. -/
def delayedProcessingStatus (mid : String) (s : AssistantState) : AssistantState :=
  { s with messages := s.messages ++
      [{ id := mid, type := MessageType.status,
         content := "Processing your query...", isProcessing := true }] }

/-- The `disabled` predicate of the send `Button`:
`!inputValue.trim() || isLoading || connectionStatus !== 'connected' || !isUserAuthenticated`. -/
def sendButtonDisabled (s : AssistantState) : Bool :=
  jsTrim s.inputValue == "" || s.isLoading ||
    !(s.connectionStatus == ConnectionStatus.connected) || !s.isUserAuthenticated

/-- The `disabled` predicate of the text `Input`:
`isLoading || connectionStatus !== 'connected' || !isUserAuthenticated`. -/
def inputDisabled (s : AssistantState) : Bool :=
  s.isLoading || !(s.connectionStatus == ConnectionStatus.connected) ||
    !s.isUserAuthenticated

/-- The WebSocket `onclose` callback: sets the status to disconnected,
resets `isLoading`, removes all processing messages, and — per
`onCloseRetry` — arms the reconnect timer exactly when
`event.code !== 1000 && reconnectAttempts.current < maxReconnectAttempts`.
It does not touch `loadingTimeoutRef`. -/
def onCloseEvent (code : Nat) (s : AssistantState) : AssistantState :=
  let s1 := { s with
      connectionStatus := ConnectionStatus.disconnected,
      isLoading := false,
      messages := s.messages.filter (fun m => !m.isProcessing) }
  if (onCloseRetry code s.reconnectAttempts).1.isSome then
    { s1 with reconnectTimeoutArmed := true }
  else s1

/-- The WebSocket `onopen` callback: sets the status to connected and
resets `reconnectAttempts.current` to 0. -/
def onOpenEvent (s : AssistantState) : AssistantState :=
  { s with
      connectionStatus := ConnectionStatus.connected,
      reconnectAttempts := 0 }

/-- The WebSocket `onerror` callback: sets the status to error (plus a
toast). -/
def onErrorEvent (s : AssistantState) : AssistantState :=
  { s with connectionStatus := ConnectionStatus.error }

/-- `clearChat`: resets the history to the single greeting turn. -/
def clearChat (s : AssistantState) : AssistantState :=
  { s with messages := [clearGreeting] }

/-- The events of the single-threaded React event loop that mutate the
embedded state: a submit, the delayed status append, an inbound frame
(possibly unparseable), the loading-timeout firing, socket open / close /
error, `clearChat`, input editing (`setInputValue`, also via
`handleSuggestedQuery`), and an authentication change. -/
inductive SessionEvent where
  | submit (mid : String)
  | delayedStatus (mid : String)
  | wsMessage (mid : String) (parsed : Option WebSocketMessage)
  | loadingTimeout (mid : String)
  | wsClose (code : Nat)
  | wsOpen
  | wsErr
  | clear
  | setInput (v : String)
  | setAuth (b : Bool)

/-- One step of the event loop. -/
def stepEvent : SessionEvent → AssistantState → AssistantState
  | SessionEvent.submit mid, s => handleSendMessage mid s
  | SessionEvent.delayedStatus mid, s => delayedProcessingStatus mid s
  | SessionEvent.wsMessage mid parsed, s => onMessage mid parsed s
  | SessionEvent.loadingTimeout mid, s => loadingTimeoutFire mid s
  | SessionEvent.wsClose code, s => onCloseEvent code s
  | SessionEvent.wsOpen, s => onOpenEvent s
  | SessionEvent.wsErr, s => onErrorEvent s
  | SessionEvent.clear, s => clearChat s
  | SessionEvent.setInput v, s => { s with inputValue := v }
  | SessionEvent.setAuth b, s => { s with isUserAuthenticated := b }

/-- The component's initial state: the greeting history, empty input, not
loading, disconnected, no timers pending, zero reconnect attempts. -/
def initialState : AssistantState :=
  { messages := [initialGreeting]
    inputValue := ""
    isLoading := false
    connectionStatus := ConnectionStatus.disconnected
    loadingTimeoutArmed := false
    reconnectTimeoutArmed := false
    reconnectAttempts := 0
    isUserAuthenticated := false }

/-- States reachable by the event loop from the initial state. -/
inductive Reachable : AssistantState → Prop where
  | init : Reachable initialState
  | step (e : SessionEvent) {s : AssistantState} :
      Reachable s → Reachable (stepEvent e s)

/-- A frame whose `type` is not a recognized kind. -/
def bogusFrame : WebSocketMessage :=
  { type := "bogus", message := none, answer := none, error := none,
    results_count := none, data := none }

/-- C3: the reconnection policy computes, for every 0-based attempt number,
a retry delay of `min(1000 * 2^attempt, 30000)` ms — concretely 1000,
2000, 4000, 8000, 16000, 30000, 30000 for attempts 0..6 — and once
`attempt >= maxReconnectAttempts = 5` it schedules no retry and instead
signals the terminal "Connection Failed" (reconnect-exhausted) notice. -/
theorem C3_reconnect_backoff (attempt code k : Nat) :
    reconnectDelay attempt = min (1000 * 2 ^ attempt) 30000 ∧
    ([reconnectDelay 0, reconnectDelay 1, reconnectDelay 2, reconnectDelay 3,
        reconnectDelay 4, reconnectDelay 5, reconnectDelay 6] =
      [1000, 2000, 4000, 8000, 16000, 30000, 30000]) ∧
    onCloseRetry code (maxReconnectAttempts + k) = (none, true) := by
  refine ⟨rfl, by decide, ?_⟩
  have h1 : ¬(code ≠ 1000 ∧ maxReconnectAttempts + k < maxReconnectAttempts) := by
    rintro ⟨-, hlt⟩
    omega
  unfold onCloseRetry
  rw [if_neg h1, if_pos (Nat.le_add_right _ _)]

/-- C6: a close with code 1000 never schedules a reconnection attempt (it
never arms the reconnect timer), for every value of the `reconnectAttempt`
counter; any other close code is governed by the reconnection policy —
retry with the computed backoff delay while `attempt < 5`, terminal
exhaustion signal otherwise. -/
theorem C6_graceful_close_no_retry (s : AssistantState) (code attempt : Nat)
    (hc : code ≠ 1000) :
    (onCloseRetry 1000 attempt).1 = none ∧
    (onCloseEvent 1000 s).reconnectTimeoutArmed = s.reconnectTimeoutArmed ∧
    onCloseRetry code s.reconnectAttempts =
      (if s.reconnectAttempts < maxReconnectAttempts then
        (some (reconnectDelay s.reconnectAttempts), false)
      else (none, true)) := by
  have hnone : ∀ a : Nat, (onCloseRetry 1000 a).1 = none := by
    intro a
    unfold onCloseRetry
    split_ifs with h1 h2
    · exact absurd rfl h1.1
    · rfl
    · rfl
  refine ⟨hnone attempt, ?_, ?_⟩
  · unfold onCloseEvent
    rw [hnone s.reconnectAttempts]
    simp
  · by_cases hlt : s.reconnectAttempts < maxReconnectAttempts
    · rw [if_pos hlt]
      unfold onCloseRetry
      rw [if_pos ⟨hc, hlt⟩]
    · rw [if_neg hlt]
      unfold onCloseRetry
      rw [if_neg (fun h => hlt h.2), if_pos (Nat.le_of_not_lt hlt)]

/-- Closed instance of `C6_graceful_close_no_retry` at close code 1006 in
the initial state. -/
theorem C6_witness :
    (onCloseRetry 1000 3).1 = none ∧
    (onCloseEvent 1000 initialState).reconnectTimeoutArmed =
      initialState.reconnectTimeoutArmed ∧
    onCloseRetry 1006 initialState.reconnectAttempts =
      (if initialState.reconnectAttempts < maxReconnectAttempts then
        (some (reconnectDelay initialState.reconnectAttempts), false)
      else (none, true)) :=
  C6_graceful_close_no_retry initialState 1006 3 (by decide)

/-- C8: an unparseable inbound frame (`JSON.parse` throws; modelled as
`parsed = none`) and a parsed frame whose `type` is not one of the
recognized kinds (including the empty / falsy `type` rejected by the
validation guard) leave the component state — turn history, loading flag,
timers — completely unchanged; the router is a total function, so no such
frame can crash it. -/
theorem C8_malformed_frame_dropped (s : AssistantState) (mid : String)
    (d : WebSocketMessage)
    (h : d.type ≠ "connection" ∧ d.type ≠ "status" ∧ d.type ≠ "intermediate" ∧
      d.type ≠ "result" ∧ d.type ≠ "error") :
    onMessage mid none s = s ∧ handleWebSocketMessage mid d s = s := by
  obtain ⟨h1, h2, h3, h4, h5⟩ := h
  refine ⟨rfl, ?_⟩
  unfold handleWebSocketMessage
  split_ifs <;> rfl

/-- Closed instance of `C8_malformed_frame_dropped`: a frame of unknown
kind `"bogus"` changes nothing. -/
theorem C8_witness :
    onMessage "7" none initialState = initialState ∧
    handleWebSocketMessage "7" bogusFrame initialState = initialState :=
  C8_malformed_frame_dropped initialState "7" bogusFrame (by decide)

/-- A mid-query state: one User turn awaiting its answer, one provisional
status turn, the loading flag set and the 30-second timeout pending; the
input holds text again (e.g. via a suggested-query click, whose badge is
never disabled). -/
def busyState : AssistantState :=
  { messages := [initialGreeting,
      { id := "2", type := MessageType.user, content := "Show me all expenses",
        isProcessing := false },
      { id := "3", type := MessageType.status, content := "Processing your query...",
        isProcessing := true }]
    inputValue := "Find all receipts"
    isLoading := true
    connectionStatus := ConnectionStatus.connected
    loadingTimeoutArmed := true
    reconnectTimeoutArmed := false
    reconnectAttempts := 0
    isUserAuthenticated := true }

/-- A concrete `result` frame. -/
def resultFrame : WebSocketMessage :=
  { type := "result", message := none, answer := some "You spent 500",
    error := none, results_count := none, data := none }

/-- A concrete `error` frame. -/
def errorFrame : WebSocketMessage :=
  { type := "error", message := none, answer := none,
    error := some "DB timeout", results_count := none, data := none }

/-- A concrete `intermediate` frame with a nonzero `results_count`. -/
def interFrame1 : WebSocketMessage :=
  { type := "intermediate", message := some "first pass", answer := none,
    error := none, results_count := some 3, data := none }

/-- A second concrete `intermediate` frame. -/
def interFrame2 : WebSocketMessage :=
  { type := "intermediate", message := none, answer := none,
    error := none, results_count := some 7, data := none }

/-- A concrete `status` frame. -/
def statusFrame : WebSocketMessage :=
  { type := "status", message := some "Analyzing receipts", answer := none,
    error := none, results_count := none, data := none }

/-- C2: delivering a terminal (`result` or `error`) frame, whatever the
preceding history — so regardless of how many status / intermediate frames
came before — removes every processing (provisional) turn, appends exactly
one non-provisional Assistant turn with the final text, clears the loading
flag (the in-flight marker) and cancels the 30-second timeout. -/
theorem C2_terminal_clears_inflight (s : AssistantState) (mid : String)
    (d : WebSocketMessage) (h : d.type = "result" ∨ d.type = "error") :
    (handleWebSocketMessage mid d s).messages =
      s.messages.filter (fun m => !m.isProcessing) ++
        [{ id := mid, type := MessageType.assistant,
           content := if d.type = "result" then resultContent d else errorContent d,
           isProcessing := false }] ∧
    (handleWebSocketMessage mid d s).isLoading = false ∧
    (handleWebSocketMessage mid d s).loadingTimeoutArmed = false := by
  rcases h with h | h <;>
    · unfold handleWebSocketMessage
      rw [h]
      simp

/-- Closed instance of `C2_terminal_clears_inflight`: a `result` frame
delivered in the mid-query state. -/
theorem C2_witness :
    (handleWebSocketMessage "9" resultFrame busyState).messages =
      busyState.messages.filter (fun m => !m.isProcessing) ++
        [{ id := "9", type := MessageType.assistant,
           content := if resultFrame.type = "result" then resultContent resultFrame
             else errorContent resultFrame,
           isProcessing := false }] ∧
    (handleWebSocketMessage "9" resultFrame busyState).isLoading = false ∧
    (handleWebSocketMessage "9" resultFrame busyState).loadingTimeoutArmed = false :=
  C2_terminal_clears_inflight busyState "9" resultFrame (Or.inl rfl)

/-- After any `intermediate` frame the history holds exactly one
intermediate-role turn: the handler first removes every existing one,
then appends one. -/
theorem countP_intermediate_after (mid : String) (d : WebSocketMessage)
    (s : AssistantState) (h : d.type = "intermediate") :
    ((handleWebSocketMessage mid d s).messages.countP
      (fun m => m.type == MessageType.intermediate)) = 1 := by
  unfold handleWebSocketMessage
  rw [h]
  simp [List.countP_append, List.countP_filter]

/-- C4: two consecutive `intermediate` frames leave exactly one
Intermediate-role turn in the history (indeed already one `intermediate`
frame does: each such frame removes all existing intermediate turns before
appending its own), while a `status` frame is appended to the existing
history without removing anything. -/
theorem C4_intermediate_replaces_status_accumulates (s : AssistantState)
    (mid1 mid2 midS : String) (d1 d2 dS : WebSocketMessage)
    (h1 : d1.type = "intermediate") (h2 : d2.type = "intermediate")
    (hS : dS.type = "status") :
    ((handleWebSocketMessage mid2 d2
        (handleWebSocketMessage mid1 d1 s)).messages.countP
      (fun m => m.type == MessageType.intermediate)) = 1 ∧
    ((handleWebSocketMessage mid1 d1 s).messages.countP
      (fun m => m.type == MessageType.intermediate)) = 1 ∧
    (handleWebSocketMessage midS dS s).messages =
      s.messages ++
        [{ id := midS, type := MessageType.status,
           content := statusContent dS, isProcessing := true }] := by
  refine ⟨countP_intermediate_after _ _ _ h2, countP_intermediate_after _ _ _ h1, ?_⟩
  unfold handleWebSocketMessage
  rw [hS]
  simp

/-- Closed instance of `C4_intermediate_replaces_status_accumulates` with
two concrete intermediate frames and a status frame on the initial
state. -/
theorem C4_witness :
    ((handleWebSocketMessage "b" interFrame2
        (handleWebSocketMessage "a" interFrame1 initialState)).messages.countP
      (fun m => m.type == MessageType.intermediate)) = 1 ∧
    ((handleWebSocketMessage "a" interFrame1 initialState).messages.countP
      (fun m => m.type == MessageType.intermediate)) = 1 ∧
    (handleWebSocketMessage "c" statusFrame initialState).messages =
      initialState.messages ++
        [{ id := "c", type := MessageType.status,
           content := statusContent statusFrame, isProcessing := true }] :=
  C4_intermediate_replaces_status_accumulates initialState "a" "b" "c"
    interFrame1 interFrame2 statusFrame rfl rfl rfl

/-- C5: while the 30-second timeout is pending, its firing synthesizes
exactly one local timed-out Assistant turn, clears the loading flag and
consumes the timer; a second firing is impossible (the fired timer is
disarmed, so a further fire event is the identity), and delivering a
terminal frame cancels the pending timeout on the spot. -/
theorem C5_timeout_fires_once (s : AssistantState) (mid mid2 : String)
    (d : WebSocketMessage) (harm : s.loadingTimeoutArmed = true)
    (hterm : d.type = "result" ∨ d.type = "error") :
    loadingTimeoutMs = 30000 ∧
    (loadingTimeoutFire mid s).messages =
      s.messages.filter (fun m => !m.isProcessing) ++ [timeoutMessage mid] ∧
    (loadingTimeoutFire mid s).isLoading = false ∧
    (loadingTimeoutFire mid s).loadingTimeoutArmed = false ∧
    loadingTimeoutFire mid2 (loadingTimeoutFire mid s) = loadingTimeoutFire mid s ∧
    (handleWebSocketMessage mid2 d s).loadingTimeoutArmed = false := by
  have hfire : loadingTimeoutFire mid s =
      { s with
          loadingTimeoutArmed := false,
          isLoading := false,
          messages := s.messages.filter (fun m => !m.isProcessing) ++
            [timeoutMessage mid] } := by
    unfold loadingTimeoutFire
    rw [if_pos harm]
  refine ⟨rfl, by rw [hfire], by rw [hfire], by rw [hfire], ?_, ?_⟩
  · rw [hfire]
    unfold loadingTimeoutFire
    simp
  · rcases hterm with h | h <;>
      · unfold handleWebSocketMessage
        rw [h]
        simp

/-- Closed instance of `C5_timeout_fires_once` in the mid-query state with
a concrete `error` frame. -/
theorem C5_witness :
    loadingTimeoutMs = 30000 ∧
    (loadingTimeoutFire "t1" busyState).messages =
      busyState.messages.filter (fun m => !m.isProcessing) ++ [timeoutMessage "t1"] ∧
    (loadingTimeoutFire "t1" busyState).isLoading = false ∧
    (loadingTimeoutFire "t1" busyState).loadingTimeoutArmed = false ∧
    loadingTimeoutFire "t2" (loadingTimeoutFire "t1" busyState) =
      loadingTimeoutFire "t1" busyState ∧
    (handleWebSocketMessage "t2" errorFrame busyState).loadingTimeoutArmed = false :=
  C5_timeout_fires_once busyState "t1" "t2" errorFrame rfl (Or.inr rfl)

set_option maxRecDepth 4000 in
/-- C1 counterexample: the mid-query state is reachable (log in, connect,
type a query, submit it, receive the delayed status turn, then refill the
input via a suggested-query click — the badges are never disabled), it has
`isLoading = true` (an in-flight query pending), and a further call to
`handleSendMessage` does not fail — its guard checks only the trimmed
input, the connection status and authentication, never the loading flag —
so it appends a second User turn. -/
theorem C1_counterexample :
    Reachable busyState ∧
    busyState.isLoading = true ∧
    ((handleSendMessage "4" busyState).messages.countP
        (fun m => m.type == MessageType.user)) =
      (busyState.messages.countP (fun m => m.type == MessageType.user)) + 1 := by
  have h1 := Reachable.step (SessionEvent.setAuth true) Reachable.init
  have h2 := Reachable.step SessionEvent.wsOpen h1
  have h3 := Reachable.step (SessionEvent.setInput "Show me all expenses") h2
  have h4 := Reachable.step (SessionEvent.submit "2") h3
  have h5 := Reachable.step (SessionEvent.delayedStatus "3") h4
  have h6 := Reachable.step (SessionEvent.setInput "Find all receipts") h5
  have e : stepEvent (SessionEvent.setInput "Find all receipts")
      (stepEvent (SessionEvent.delayedStatus "3")
        (stepEvent (SessionEvent.submit "2")
          (stepEvent (SessionEvent.setInput "Show me all expenses")
            (stepEvent SessionEvent.wsOpen
              (stepEvent (SessionEvent.setAuth true) initialState))))) =
      busyState := by decide
  exact ⟨e ▸ h6, by decide, by decide⟩

/-- C1 amended: mutual exclusion of submissions is enforced by the UI, not
by `handleSendMessage`: while `isLoading` is true both the send button and
the text input are disabled, so no submit can be triggered; and
`handleSendMessage` itself rejects (returns the state unchanged, appending
no User turn) exactly when its own guard trips — empty trimmed input,
connection not `connected`, or user not authenticated. -/
theorem C1_amended_ui_gating (s : AssistantState) (mid : String)
    (hl : s.isLoading = true) :
    sendButtonDisabled s = true ∧
    inputDisabled s = true ∧
    (jsTrim s.inputValue = "" ∨ s.connectionStatus ≠ ConnectionStatus.connected ∨
        s.isUserAuthenticated = false →
      handleSendMessage mid s = s) := by
  refine ⟨?_, ?_, ?_⟩
  · unfold sendButtonDisabled
    rw [hl]
    simp
  · unfold inputDisabled
    rw [hl]
    simp
  · intro hg
    unfold handleSendMessage
    rw [if_pos hg]

/-- Closed instance of `C1_amended_ui_gating` in the mid-query state. -/
theorem C1_witness :
    sendButtonDisabled busyState = true ∧
    inputDisabled busyState = true ∧
    (jsTrim busyState.inputValue = "" ∨
        busyState.connectionStatus ≠ ConnectionStatus.connected ∨
        busyState.isUserAuthenticated = false →
      handleSendMessage "4" busyState = busyState) :=
  C1_amended_ui_gating busyState "4" rfl

/-- An `intermediate` frame carrying `results_count: 0`. -/
def zeroCountFrame : WebSocketMessage :=
  { type := "intermediate", message := some "Scanning receipts", answer := none,
    error := none, results_count := some 0, data := none }

/-- C7 counterexample: a present `results_count` does not always produce a
count-reporting turn — `results_count: 0` is falsy in JS, so the handler
takes the fallback branch and uses the frame's `message` instead of
`"Found 0 matching receipts"`. -/
theorem C7_counterexample :
    zeroCountFrame.results_count = some 0 ∧
    intermediateContent zeroCountFrame = "Scanning receipts" ∧
    intermediateContent zeroCountFrame ≠ "Found 0 matching receipts" := by
  decide

/-- C7 amended: unknown fields of an inbound frame are ignored (the
handler's output does not depend on the never-read `data` field); a
missing — or zero, which JS truthiness conflates with missing —
`results_count` falls back to the frame's `message` or the generic
`"Processing your request..."` string; a present nonzero `results_count`
produces `"Found N matching receipts"`. -/
theorem C7_amended_zero_falls_back (d : WebSocketMessage) (n : Int)
    (x : Option String) (s : AssistantState) (mid : String)
    (_h : d.type = "intermediate") :
    (d.results_count = some n → n ≠ 0 →
      intermediateContent d = "Found " ++ toString n ++ " matching receipts") ∧
    (d.results_count = none ∨ d.results_count = some 0 →
      intermediateContent d = jsOr d.message "Processing your request...") ∧
    handleWebSocketMessage mid { d with data := x } s =
      handleWebSocketMessage mid d s := by
  refine ⟨?_, ?_, rfl⟩
  · intro hc hn
    unfold intermediateContent
    rw [hc]
    simp [jsNumTruthy, hn]
  · rintro (hc | hc) <;>
      · unfold intermediateContent
        rw [hc]
        simp [jsNumTruthy]

/-- Closed instance of `C7_amended_zero_falls_back` on a frame with
`results_count = 3` and an extra ignored field. -/
theorem C7_witness :
    (interFrame1.results_count = some 3 → (3 : Int) ≠ 0 →
      intermediateContent interFrame1 =
        "Found " ++ toString (3 : Int) ++ " matching receipts") ∧
    (interFrame1.results_count = none ∨ interFrame1.results_count = some 0 →
      intermediateContent interFrame1 =
        jsOr interFrame1.message "Processing your request...") ∧
    handleWebSocketMessage "m" { interFrame1 with data := some "ignored" }
        initialState =
      handleWebSocketMessage "m" interFrame1 initialState :=
  C7_amended_zero_falls_back interFrame1 3 (some "ignored") initialState "m" rfl

/-- C10: a socket close while a query is in flight clears the loading flag
and removes the provisional turns, but leaves the 30-second query timeout
armed; if nothing cancels it, its later firing appends the synthesized
"Request timed out" Assistant turn for the abandoned query. -/
theorem C10_close_keeps_timeout (s : AssistantState) (code : Nat) (mid : String)
    (_hl : s.isLoading = true) (ht : s.loadingTimeoutArmed = true) :
    (onCloseEvent code s).isLoading = false ∧
    (onCloseEvent code s).messages =
      s.messages.filter (fun m => !m.isProcessing) ∧
    (onCloseEvent code s).loadingTimeoutArmed = true ∧
    (loadingTimeoutFire mid (onCloseEvent code s)).messages =
      (onCloseEvent code s).messages ++ [timeoutMessage mid] := by
  unfold onCloseEvent
  split_ifs with hs <;>
    exact ⟨rfl, rfl, ht, by
      unfold loadingTimeoutFire
      simp [ht, List.filter_filter]⟩

/-- Closed instance of `C10_close_keeps_timeout`: abnormal close 1006 in
the mid-query state, then the timeout fires. -/
theorem C10_witness :
    (onCloseEvent 1006 busyState).isLoading = false ∧
    (onCloseEvent 1006 busyState).messages =
      busyState.messages.filter (fun m => !m.isProcessing) ∧
    (onCloseEvent 1006 busyState).loadingTimeoutArmed = true ∧
    (loadingTimeoutFire "t3" (onCloseEvent 1006 busyState)).messages =
      (onCloseEvent 1006 busyState).messages ++ [timeoutMessage "t3"] :=
  C10_close_keeps_timeout busyState 1006 "t3" rfl rfl

/-- A message's `isProcessing` flag agrees with its role: the flag is set
exactly on Status / Intermediate turns. -/
def flagMatches (m : Message) : Prop :=
  m.isProcessing = true ↔
    (m.type = MessageType.status ∨ m.type = MessageType.intermediate)

instance (m : Message) : Decidable (flagMatches m) := by
  unfold flagMatches
  infer_instance

theorem flagMatches_mem_filter {p : Message → Bool} {l : List Message}
    (h : ∀ m ∈ l, flagMatches m) : ∀ m ∈ l.filter p, flagMatches m := by
  intro m hm
  exact h m (List.mem_filter.mp hm).1

theorem flagMatches_append {l1 l2 : List Message}
    (h1 : ∀ m ∈ l1, flagMatches m) (h2 : ∀ m ∈ l2, flagMatches m) :
    ∀ m ∈ l1 ++ l2, flagMatches m := by
  intro m hm
  rcases List.mem_append.mp hm with hm | hm
  · exact h1 m hm
  · exact h2 m hm

theorem flagMatches_single {m0 : Message} (h : flagMatches m0) :
    ∀ m ∈ [m0], flagMatches m := by
  intro m hm
  rw [List.mem_singleton] at hm
  rw [hm]
  exact h

/-- Every turn appended by the frame router keeps the flag/role
agreement. -/
theorem flagMatches_handleWS (mid : String) (d : WebSocketMessage)
    (s : AssistantState) (h : ∀ m ∈ s.messages, flagMatches m) :
    ∀ m ∈ (handleWebSocketMessage mid d s).messages, flagMatches m := by
  unfold handleWebSocketMessage
  split_ifs <;>
    first
      | exact h
      | exact flagMatches_append h (flagMatches_single (by simp [flagMatches]))
      | exact flagMatches_append (flagMatches_mem_filter h)
          (flagMatches_single (by simp [flagMatches]))

/-- Every event of the session loop preserves the flag/role agreement of
the whole history. -/
theorem flagMatches_step (e : SessionEvent) (s : AssistantState)
    (h : ∀ m ∈ s.messages, flagMatches m) :
    ∀ m ∈ (stepEvent e s).messages, flagMatches m := by
  cases e with
  | submit mid =>
      simp only [stepEvent]
      unfold handleSendMessage
      split_ifs
      · exact h
      · exact flagMatches_append h (flagMatches_single (by simp [flagMatches]))
  | delayedStatus mid =>
      exact flagMatches_append h (flagMatches_single (by simp [flagMatches]))
  | wsMessage mid parsed =>
      cases parsed with
      | none => exact h
      | some d => exact flagMatches_handleWS mid d s h
  | loadingTimeout mid =>
      simp only [stepEvent]
      unfold loadingTimeoutFire
      split_ifs
      · exact flagMatches_append (flagMatches_mem_filter h)
          (flagMatches_single (by simp [flagMatches, timeoutMessage]))
      · exact h
  | wsClose code =>
      simp only [stepEvent]
      unfold onCloseEvent
      split_ifs <;> exact flagMatches_mem_filter h
  | wsOpen => exact h
  | wsErr => exact h
  | clear => exact flagMatches_single (by simp [flagMatches, clearGreeting])
  | setInput v => exact h
  | setAuth b => exact h

/-- In every reachable state the whole history satisfies the flag/role
agreement. -/
theorem reachable_flagMatches {s : AssistantState} (h : Reachable s) :
    ∀ m ∈ s.messages, flagMatches m := by
  induction h with
  | init => decide
  | step e hr ih => exact flagMatches_step e _ ih

theorem flagMatches_filter_eq (m : Message) (h : flagMatches m) :
    (!m.isProcessing) =
      (!(m.type == MessageType.status || m.type == MessageType.intermediate)) := by
  obtain ⟨mid, mt, mc, mp⟩ := m
  unfold flagMatches at h
  cases mp <;> cases mt <;> simp_all

/-- C9: in every reachable history a turn carries `isProcessing = true`
exactly when its role is Status or Intermediate (User and Assistant turns
never carry it) — the agreement is preserved by every event of the loop —
so the terminal-frame handlers' filter on `isProcessing` removes exactly
the provisional Status / Intermediate turns. -/
theorem C9_isProcessing_invariant (s : AssistantState) (m : Message)
    (h : Reachable s) (hm : m ∈ s.messages) :
    (m.isProcessing = true ↔
      (m.type = MessageType.status ∨ m.type = MessageType.intermediate)) ∧
    s.messages.filter (fun m2 => !m2.isProcessing) =
      s.messages.filter
        (fun m2 =>
          !(m2.type == MessageType.status ||
            m2.type == MessageType.intermediate)) := by
  have hall := reachable_flagMatches h
  refine ⟨hall m hm, List.filter_congr ?_⟩
  intro m2 hm2
  exact flagMatches_filter_eq m2 (hall m2 hm2)

/-- Closed instance of `C9_isProcessing_invariant` at the initial
state. -/
theorem C9_witness :
    (initialGreeting.isProcessing = true ↔
      (initialGreeting.type = MessageType.status ∨
        initialGreeting.type = MessageType.intermediate)) ∧
    initialState.messages.filter (fun m2 => !m2.isProcessing) =
      initialState.messages.filter
        (fun m2 =>
          !(m2.type == MessageType.status ||
            m2.type == MessageType.intermediate)) :=
  C9_isProcessing_invariant initialState initialGreeting Reachable.init
    (List.mem_singleton.mpr rfl)

end RaseedAssistant
